import Mathlib

/-!
Shallow embedding of the ai-pulse outbound-calling core: the webhook
normalization pipeline (payload extraction, disposition classification,
status and cost derivation, lead matching) and the pacing/dispatch engine
(campaign execution hook).  JavaScript strings are Lean strings, JS numbers
are rationals, nullable values are Option, and JS truthiness on strings
and numbers is made explicit.
-/

namespace AiPulse

/-- JS s.toLowerCase restricted to ASCII letters (all keyword literals in
the source are ASCII). -/
def lowerStr (s : String) : String := ⟨s.data.map Char.toLower⟩

/-- JS hay.includes needle : contiguous-substring containment. -/
def strIncludes (hay needle : String) : Bool :=
  hay.data.tails.any (fun t => needle.data.isPrefixOf t)

/-- JS s.replace(/\D/g, "") : keep only digit characters. -/
def stripNonDigits (s : String) : String := ⟨s.data.filter Char.isDigit⟩

/-- JS s.slice(-n) : the last n characters (the whole string when shorter). -/
def lastNChars (n : Nat) (s : String) : String := ⟨s.data.drop (s.data.length - n)⟩

/-- JS s.endsWith suffix. -/
def strEndsWith (s suffix : String) : Bool := suffix.data.isSuffixOf s.data

/-- JS truthiness of a nullable string: null and the empty string are falsy. -/
def strTruthy : Option String → Bool
  | some s => !s.isEmpty
  | none => false

/-- JS truthiness of a nullable number: null and 0 are falsy. -/
def qTruthy : Option ℚ → Bool
  | some d => d != 0
  | none => false

/-! The webhook payload model: the object shapes the extraction functions in
the edge function probe, with every field optional (absent = none). -/

structure Metadata where
  contactId : Option String := none
deriving DecidableEq

structure Customer where
  number : Option String := none
  name : Option String := none
  contactId : Option String := none
deriving DecidableEq

structure Analysis where
  summary : Option String := none
deriving DecidableEq

structure AssistantOverrides where
  metadata : Option Metadata := none
deriving DecidableEq

structure Artifact where
  assistantOverrides : Option AssistantOverrides := none
  customer : Option Customer := none
deriving DecidableEq

structure Message where
  endedReason : Option String := none
  end_reason : Option String := none
  analysis : Option Analysis := none
  transcript : Option String := none
  durationSeconds : Option ℚ := none
  duration : Option ℚ := none
  success : Option Bool := none
  artifact : Option Artifact := none
  assistantOverrides : Option AssistantOverrides := none
  metadata : Option Metadata := none
  customer : Option Customer := none
  toNumber : Option String := none
deriving DecidableEq

structure Payload where
  endedReason : Option String := none
  end_reason : Option String := none
  analysis : Option Analysis := none
  summary : Option String := none
  transcript : Option String := none
  durationSeconds : Option ℚ := none
  duration : Option ℚ := none
  success : Option Bool := none
  status : Option String := none
  metadata : Option Metadata := none
  assistantOverrides : Option AssistantOverrides := none
  customer : Option Customer := none
  toNumber : Option String := none
  message : Option Message := none
deriving DecidableEq

/-- extractContactId: ordered candidate paths, first truthy wins. -/
def extractContactId (p : Payload) : Option String :=
  let c1 := p.metadata.bind Metadata.contactId
  let c2 := (((p.message.bind Message.artifact).bind Artifact.assistantOverrides).bind
    AssistantOverrides.metadata).bind Metadata.contactId
  let c3 := (p.assistantOverrides.bind AssistantOverrides.metadata).bind Metadata.contactId
  let c4 := p.customer.bind Customer.contactId
  let c5 := ((p.message.bind Message.assistantOverrides).bind
    AssistantOverrides.metadata).bind Metadata.contactId
  let c6 := (p.message.bind Message.metadata).bind Metadata.contactId
  if strTruthy c1 then c1
  else if strTruthy c2 then c2
  else if strTruthy c3 then c3
  else if strTruthy c4 then c4
  else if strTruthy c5 then c5
  else if strTruthy c6 then c6
  else none

/-- extractPhoneNumber: ordered candidate paths, first truthy wins. -/
def extractPhoneNumber (p : Payload) : Option String :=
  let n1 := p.customer.bind Customer.number
  let n2 := ((p.message.bind Message.artifact).bind Artifact.customer).bind Customer.number
  let n3 := (p.message.bind Message.customer).bind Customer.number
  let n4 := p.toNumber
  let n5 := p.message.bind Message.toNumber
  if strTruthy n1 then n1
  else if strTruthy n2 then n2
  else if strTruthy n3 then n3
  else if strTruthy n4 then n4
  else if strTruthy n5 then n5
  else none

/-- extractCustomerName: ordered candidate paths, first truthy wins. -/
def extractCustomerName (p : Payload) : Option String :=
  let m1 := p.customer.bind Customer.name
  let m2 := ((p.message.bind Message.artifact).bind Artifact.customer).bind Customer.name
  let m3 := (p.message.bind Message.customer).bind Customer.name
  if strTruthy m1 then m1
  else if strTruthy m2 then m2
  else if strTruthy m3 then m3
  else none

/-- End-reason extraction inside extractDisposition: endedReason,
message.endedReason, end_reason, message.end_reason. -/
def extractEndReason (p : Payload) : Option String :=
  let e1 := p.endedReason
  let e2 := p.message.bind Message.endedReason
  let e3 := p.end_reason
  let e4 := p.message.bind Message.end_reason
  if strTruthy e1 then e1
  else if strTruthy e2 then e2
  else if strTruthy e3 then e3
  else if strTruthy e4 then e4
  else none

/-- Summary extraction inside extractDisposition: message.analysis.summary,
analysis.summary, summary. -/
def extractSummary (p : Payload) : Option String :=
  let s1 := (p.message.bind Message.analysis).bind Analysis.summary
  let s2 := p.analysis.bind Analysis.summary
  let s3 := p.summary
  if strTruthy s1 then s1
  else if strTruthy s2 then s2
  else if strTruthy s3 then s3
  else none

/-- Transcript extraction inside extractDisposition: message.transcript,
transcript. -/
def extractTranscript (p : Payload) : Option String :=
  let t1 := p.message.bind Message.transcript
  let t2 := p.transcript
  if strTruthy t1 then t1
  else if strTruthy t2 then t2
  else none

/-- The combined content string: (summary or empty) ++ space ++ (transcript
or empty), exactly as the source concatenates them. -/
def extractContent (p : Payload) : String :=
  (extractSummary p).getD "" ++ " " ++ (extractTranscript p).getD ""

/-- JS endReason?.toLowerCase().includes kw : false when endReason is null. -/
def endIncl (e : Option String) (kw : String) : Bool :=
  match e with
  | some s => strIncludes (lowerStr s) kw
  | none => false

/-- Answering-machine rule condition. -/
def amCond (e : Option String) (c : String) : Bool :=
  let lc := lowerStr c
  strIncludes lc "leave a message" ||
  strIncludes lc "at the tone" ||
  strIncludes lc "voicemail" ||
  strIncludes lc "can't take your call" ||
  strIncludes lc "after the beep" ||
  endIncl e "voicemail"

/-- No-answer rule condition. -/
def noAnswerCond (e : Option String) : Bool :=
  endIncl e "customer did not answer" ||
  endIncl e "customer-did-not-answer" ||
  endIncl e "twilio failed connection" ||
  endIncl e "no-answer" ||
  endIncl e "no_answer"

/-- Warm-transfer outer rule condition (assistant forwarded the call). -/
def wtCond (e : Option String) : Bool :=
  endIncl e "assistant forwarded call" || endIncl e "assistant-forwarded-call"

/-- Warm-transfer education sub-condition. -/
def eduCond (c : String) : Bool :=
  let lc := lowerStr c
  strIncludes lc "education consultant" ||
  strIncludes lc "education advisor" ||
  strIncludes lc "forwarded to education" ||
  strIncludes lc "transferred to education"

/-- Warm-transfer job sub-condition. -/
def jobCond (c : String) : Bool :=
  let lc := lowerStr c
  strIncludes lc "job consultant" ||
  strIncludes lc "job advisor" ||
  strIncludes lc "forwarded to job" ||
  strIncludes lc "transferred to job"

/-- Do-not-contact rule condition. -/
def dncCond (c : String) : Bool :=
  let lc := lowerStr c
  strIncludes lc "do not call" ||
  strIncludes lc "don't call" ||
  strIncludes lc "remove me" ||
  strIncludes lc "stop calling" ||
  strIncludes lc "take me off" ||
  strIncludes lc "unsubscribe"

/-- Language-barrier rule condition. -/
def langCond (c : String) : Bool :=
  let lc := lowerStr c
  strIncludes lc "language barrier" ||
  strIncludes lc "no english" ||
  strIncludes lc "don't speak english" ||
  strIncludes lc "habla español" ||
  strIncludes lc "communication issue" ||
  strIncludes lc "language problem"

/-- Not-qualified rule condition. -/
def nqCond (c : String) : Bool :=
  let lc := lowerStr c
  strIncludes lc "not qualified" ||
  strIncludes lc "qualification failed" ||
  strIncludes lc "no high school diploma" ||
  strIncludes lc "no ged" ||
  strIncludes lc "under 18" ||
  strIncludes lc "not a us citizen" ||
  strIncludes lc "no green card" ||
  strIncludes lc "currently enrolled in school" ||
  strIncludes lc "currently enrolled in college" ||
  strIncludes lc "still in school" ||
  strIncludes lc "still in college"

/-- Not-interested rule condition. -/
def niCond (c : String) : Bool :=
  let lc := lowerStr c
  strIncludes lc "not interested" ||
  strIncludes lc "no thanks" ||
  strIncludes lc "not right now" ||
  strIncludes lc "not looking" ||
  strIncludes lc "not for me" ||
  strIncludes lc "don't want"

/-- Hang-up rule condition (customer-initiated end). -/
def hangUpCond (e : Option String) : Bool :=
  endIncl e "customer ended call" || endIncl e "customer-ended-call"

/-- The classifier body of extractDisposition, as a pure function of the
extracted end-reason and combined content: the if-chain of the source. -/
def classifyDisposition (endReason : Option String) (content : String) : String :=
  if amCond endReason content then "Answering Machine"
  else if noAnswerCond endReason then "No Answer"
  else if wtCond endReason then
    (if eduCond content then "Warm Transfer - Education"
     else if jobCond content then "Warm Transfer - Job"
     else "Warm Transfer")
  else if dncCond content then "Do Not Contact"
  else if langCond content then "Language Barrier"
  else if nqCond content then "Not Qualified"
  else if niCond content then "Not Interested"
  else if hangUpCond endReason then "Hang Up"
  else if strTruthy endReason then "Other: " ++ endReason.getD ""
  else "Unknown"

/-- extractDisposition: extract end-reason, summary and transcript via the
ordered fallback paths, then classify the combined content. -/
def extractDisposition (p : Payload) : String :=
  classifyDisposition (extractEndReason p) (extractContent p)

/-- extractDuration: durationSeconds, message.durationSeconds, duration,
message.duration, first truthy wins; default 0. -/
def extractDuration (p : Payload) : ℚ :=
  let d1 := p.durationSeconds
  let d2 := p.message.bind Message.durationSeconds
  let d3 := p.duration
  let d4 := p.message.bind Message.duration
  if qTruthy d1 then d1.getD 0
  else if qTruthy d2 then d2.getD 0
  else if qTruthy d3 then d3.getD 0
  else if qTruthy d4 then d4.getD 0
  else 0

/-- determineCallStatus: Failed on an explicit success === false at top level
or under message, or on a status string containing fail (case-insensitively);
otherwise Completed.  A non-string status field is outside the model (the
source ignores it via a typeof check, matching status := none here). -/
def determineCallStatus (p : Payload) : String :=
  if p.success == some false || (p.message.bind Message.success) == some false then "Failed"
  else
    match p.status with
    | some s => if strIncludes (lowerStr s) "fail" then "Failed" else "Completed"
    | none => "Completed"

/-- calculateCallCost: 0.99 dollars per minute. -/
def calculateCallCost (durationMinutes : ℚ) : ℚ :=
  let minuteRate : ℚ := 99 / 100
  durationMinutes * minuteRate

/-! The classifier as an explicit ordered rule table, following the wording
of the spec (ordered rule list, first matching rule wins): used to state
that the if-chain of the source realizes exactly that priority order. -/

structure DispRule where
  cond : Option String → String → Bool
  label : Option String → String → String

/-- First matching rule wins; Unknown when no rule matches. -/
def applyRules : List DispRule → Option String → String → String
  | [], _, _ => "Unknown"
  | r :: rs, e, c => if r.cond e c then r.label e c else applyRules rs e c

/-- The priority-ordered rule list of the spec: Answering Machine, No Answer,
Warm Transfer (with Education and Job sub-labels, generic fallback), Do Not
Contact, Language Barrier, Not Qualified, Not Interested, Hang Up, Other
with the end-reason when one exists. -/
def dispositionRules : List DispRule :=
  [⟨fun e c => amCond e c, fun _ _ => "Answering Machine"⟩,
   ⟨fun e _ => noAnswerCond e, fun _ _ => "No Answer"⟩,
   ⟨fun e _ => wtCond e, fun _ c =>
      if eduCond c then "Warm Transfer - Education"
      else if jobCond c then "Warm Transfer - Job"
      else "Warm Transfer"⟩,
   ⟨fun _ c => dncCond c, fun _ _ => "Do Not Contact"⟩,
   ⟨fun _ c => langCond c, fun _ _ => "Language Barrier"⟩,
   ⟨fun _ c => nqCond c, fun _ _ => "Not Qualified"⟩,
   ⟨fun _ c => niCond c, fun _ _ => "Not Interested"⟩,
   ⟨fun e _ => hangUpCond e, fun _ _ => "Hang Up"⟩,
   ⟨fun e _ => strTruthy e, fun e _ => "Other: " ++ e.getD ""⟩]

/-! The lead row model (fields of the leads table the core reads and
writes), and the Lead Matcher over an in-order list of stored rows. -/

structure Lead where
  id : String
  name : String := ""
  phone_number : Option String := none
  phone_id : Option String := none
  status : String := "Pending"
  disposition : Option String := none
  duration : ℚ := 0
  cost : ℚ := 0
deriving DecidableEq

/-- Step 1 of findLeadByPhoneNumber: exact string equality on the stored
phone number (the eq-filter query, limit 1). -/
def exactPhoneStep (db : List Lead) (phoneNumber : String) : Option Lead :=
  db.find? (fun l => l.phone_number == some phoneNumber)

/-- Step 2: case-insensitive containment of the digit-stripped last ten
digits (the ilike query on a percent-wrapped pattern, limit 1). -/
def lastTenStep (db : List Lead) (lastTen : String) : Option Lead :=
  db.find? (fun l =>
    match l.phone_number with
    | some pn => strIncludes (lowerStr pn) (lowerStr lastTen)
    | none => false)

/-- Step 3: scan of the first 25 rows comparing digit-stripped numbers and
suffixes bidirectionally. -/
def boundedScanStep (db : List Lead) (cleaned lastTen : String) : Option Lead :=
  (db.take 25).find? (fun l =>
    match l.phone_number with
    | none => false
    | some pn =>
      let leadClean := stripNonDigits pn
      let leadLast := lastNChars 10 leadClean
      leadClean == cleaned || leadLast == lastTen ||
        strEndsWith leadClean lastTen || strEndsWith cleaned leadLast)

/-- findLeadByPhoneNumber: exact match, then last-ten-digit containment,
then the bounded bidirectional-suffix scan; null when all fail. -/
def findLeadByPhoneNumber (db : List Lead) (phoneNumber : String) : Option Lead :=
  match exactPhoneStep db phoneNumber with
  | some l => some l
  | none =>
    let cleaned := stripNonDigits phoneNumber
    let lastTen := lastNChars 10 cleaned
    match lastTenStep db lastTen with
    | some l => some l
    | none => boundedScanStep db cleaned lastTen

/-- findLeadByNameAndPhone: rows whose name contains the customer name
case-insensitively (the ilike query, limit 10), filtered to a digit-stripped
phone ending in the incoming last four digits. -/
def findLeadByNameAndPhone (db : List Lead) (name phoneNumber : String) : Option Lead :=
  let cleaned := stripNonDigits phoneNumber
  let lastFour := lastNChars 4 cleaned
  let candidates := (db.filter (fun l => strIncludes (lowerStr l.name) (lowerStr name))).take 10
  candidates.find? (fun l =>
    match l.phone_number with
    | some pn => strEndsWith (stripNonDigits pn) lastFour
    | none => false)

/-! The webhook ingestor (the serve handler): orchestration of the
extraction functions, lead matching and the lead update, always answering
HTTP 200 with a success flag and a message. -/

structure WebhookResponse where
  status : ℕ
  success : Bool
  message : String
deriving DecidableEq

/-- The fields the handler writes to the matched lead row. -/
structure LeadUpdate where
  status : String
  disposition : String
  duration : ℚ
  cost : ℚ
deriving DecidableEq

/-- The normalized outcome the handler derives from a payload: status,
disposition, duration stored in minutes, derived cost. -/
def leadUpdateOf (p : Payload) : LeadUpdate :=
  let durationMinutes := extractDuration p / 60
  { status := determineCallStatus p
    disposition := extractDisposition p
    duration := durationMinutes
    cost := calculateCallCost durationMinutes }

/-- Contact resolution of the handler: the extracted contactId when present,
else the phone matcher, else the name-and-phone matcher when a customer name
is present. -/
def resolveContactId (db : List Lead) (p : Payload) : Option String :=
  match extractContactId p, extractPhoneNumber p with
  | none, some ph =>
    (match findLeadByPhoneNumber db ph with
     | some l => some l.id
     | none =>
       match extractCustomerName p with
       | some nm => (findLeadByNameAndPhone db nm ph).map Lead.id
       | none => none)
  | c, _ => c

/-- The serve handler on a request body (none = unparseable JSON) and a
stored lead table; updateOk models whether the repository update succeeds.
Returns the HTTP response and the update effect (matched lead id and the
written fields), none when no row is written. -/
def handleWebhook (body : Option Payload) (db : List Lead) (updateOk : Bool) :
    WebhookResponse × Option (String × LeadUpdate) :=
  match body with
  | none => (⟨200, false, "Invalid JSON payload"⟩, none)
  | some p =>
    match resolveContactId db p, extractPhoneNumber p with
    | none, none => (⟨200, false, "Failed to find contact information in webhook"⟩, none)
    | none, some _ => (⟨200, true, "Webhook processed successfully"⟩, none)
    | some cid, _ =>
      if updateOk then
        (⟨200, true, "Webhook processed successfully"⟩, some (cid, leadUpdateOf p))
      else (⟨200, false, "Failed to update lead"⟩, none)

/-- Applying an update effect to the lead table: the single-row PATCH by id. -/
def applyUpdate (db : List Lead) (cid : String) (u : LeadUpdate) : List Lead :=
  db.map (fun l =>
    if l.id == cid then
      { l with status := u.status, disposition := some u.disposition,
               duration := u.duration, cost := u.cost }
    else l)

/-! Campaign statistics (updateStats of the useLeads hook): counts by
status plus duration and cost sums, recomputed by scanning lead rows. -/

structure LeadStats where
  completed : ℕ
  inProgress : ℕ
  remaining : ℕ
  failed : ℕ
  totalDuration : ℚ
  totalCost : ℚ
deriving DecidableEq

/-- updateStats: filter counts by status and fold the sums. -/
def computeStats (leadsData : List Lead) : LeadStats :=
  { completed := (leadsData.filter (fun l => l.status == "Completed")).length
    inProgress := (leadsData.filter (fun l => l.status == "In Progress")).length
    remaining := (leadsData.filter (fun l => l.status == "Pending")).length
    failed := (leadsData.filter (fun l => l.status == "Failed")).length
    totalDuration := leadsData.foldl (fun sum l => sum + l.duration) 0
    totalCost := leadsData.foldl (fun sum l => sum + l.cost) 0 }

/-! The call dispatcher (triggerCall of useCampaignExecution): re-checks the
live status, sends the provider request only when still Pending, writes
In Progress and the call-initiated sentinel only on provider success. -/

/-- The provider response to the trigger-call invocation: a transport error,
or a data object carrying a success flag. -/
inductive ProviderResp where
  | err
  | ok (success : Bool)
deriving DecidableEq

/-- What one triggerCall invocation did: whether the provider request was
issued, and the status and disposition written to the lead row (none when
no write happened). -/
structure TriggerOutcome where
  requestSent : Bool
  update : Option (String × String)
deriving DecidableEq

/-- triggerCall: look the lead up in the live list; a found lead whose
status is not Pending is rejected before any request; otherwise the
request is sent and only a success response writes the row. -/
def triggerCall (leads : List Lead) (leadId : String) (resp : ProviderResp) :
    TriggerOutcome :=
  match leads.find? (fun l => l.id == leadId) with
  | some l =>
    if l.status != "Pending" then ⟨false, none⟩
    else
      match resp with
      | .err => ⟨true, none⟩
      | .ok true => ⟨true, some ("In Progress", "Call initiated")⟩
      | .ok false => ⟨true, none⟩
  | none =>
    match resp with
    | .err => ⟨true, none⟩
    | .ok true => ⟨true, some ("In Progress", "Call initiated")⟩
    | .ok false => ⟨true, none⟩

/-! The pacing scheduler (startExecution of useCampaignExecution): filter
the eligible snapshot, refuse an empty one, otherwise run interval ticks
over a cursor that advances once per tick and self-terminate at the end. -/

/-- The eligible-lead snapshot: status Pending and a non-null phone id. -/
def eligibleLeads (leads : List Lead) : List Lead :=
  leads.filter (fun l => l.status == "Pending" && l.phone_id != none)

/-- The tick interval in milliseconds: (1 / rate) * 1000. -/
def pacingIntervalMs (rate : ℕ) : ℚ := (1 / (rate : ℚ)) * 1000

/-- What startExecution produced: the no-eligible-leads error (no timer, not
executing), or a started run with its interval and snapshot. -/
inductive StartResult where
  | noEligible
  | started (intervalMs : ℚ) (snapshot : List Lead)
deriving DecidableEq

/-- Whether a timer was created. -/
def StartResult.timerCreated : StartResult → Bool
  | .noEligible => false
  | .started _ _ => true

/-- Whether the run entered the executing state. -/
def StartResult.executing : StartResult → Bool
  | .noEligible => false
  | .started _ _ => true

/-- startExecution: empty eligible set is refused with the error toast;
otherwise a timer is created at the pacing interval over the snapshot. -/
def startExecution (leads : List Lead) (selectedPacing : ℕ) : StartResult :=
  let pendingLeads := eligibleLeads leads
  if pendingLeads.isEmpty then .noEligible
  else .started (pacingIntervalMs selectedPacing) pendingLeads

/-- The state of a running interval timer: the cursor into the snapshot and
whether the interval is still scheduled. -/
structure RunState where
  cursor : ℕ
  active : Bool
deriving DecidableEq

/-- One interval callback over a snapshot of length n: past the end the
interval is cleared; otherwise the lead at the cursor is dispatched unless
a call is in flight, and the cursor advances either way.  Returns the new
state and whether this callback dispatched. -/
def intervalCallback (n : ℕ) (inFlight : Bool) (st : RunState) : RunState × Bool :=
  if !st.active then (st, false)
  else if n ≤ st.cursor then (⟨st.cursor, false⟩, false)
  else (⟨st.cursor + 1, true⟩, !inFlight)

/-- The state part of the callback is independent of the in-flight flag;
this is the transition iterated to run a campaign. -/
def callbackState (n : ℕ) (st : RunState) : RunState :=
  (intervalCallback n false st).1

/-- The initial state of a started run. -/
def initialRunState : RunState := ⟨0, true⟩

/-! Theorems settling the claims. -/

/-- Helper for the scheduler: while the cursor has not reached the end of
the snapshot, each interval callback advances it by exactly one. -/
theorem callbackState_iterate (n k : ℕ) (h : k ≤ n) :
    (callbackState n)^[k] initialRunState = ⟨k, true⟩ := by
  induction k with
  | zero => rfl
  | succ k ih =>
    have hk : ¬ n ≤ k := by omega
    rw [Function.iterate_succ_apply', ih (by omega)]
    simp [callbackState, intervalCallback, hk]

/-- Helper for the scheduler: the callback after the snapshot is exhausted
clears the interval. -/
theorem callbackState_terminates (n : ℕ) :
    (callbackState n)^[n + 1] initialRunState = ⟨n, false⟩ := by
  rw [Function.iterate_succ_apply', callbackState_iterate n n le_rfl]
  simp [callbackState, intervalCallback]

/-- C1: extractDisposition evaluates its keyword and end-reason rules as the
fixed priority-ordered rule list (Answering Machine, No Answer, Warm
Transfer with Education and Job sub-labels falling back to generic Warm
Transfer, Do Not Contact, Language Barrier, Not Qualified, Not Interested,
Hang Up, Other with the end-reason, Unknown), returning the label of the
first matching rule; content containing both the leave-a-message and the
not-interested keywords classifies as Answering Machine, and the
customer-did-not-answer end reason with empty content classifies as
No Answer. -/
theorem extractDisposition_priority_order :
    (∀ e c, classifyDisposition e c = applyRules dispositionRules e c) ∧
    (∀ p, extractDisposition p =
      classifyDisposition (extractEndReason p) (extractContent p)) ∧
    (∀ e c, strIncludes (lowerStr c) "leave a message" = true →
      strIncludes (lowerStr c) "not interested" = true →
      classifyDisposition e c = "Answering Machine") ∧
    extractDisposition
      { summary := some "they asked me to leave a message, not interested" } =
      "Answering Machine" ∧
    extractDisposition { end_reason := some "customer-did-not-answer" } = "No Answer" := by
  refine ⟨fun e c => rfl, fun p => rfl, ?_, by decide, by decide⟩
  intro e c h1 _
  simp [classifyDisposition, amCond, h1]

/-- C2: the tick interval is 1000 / rate milliseconds; while the run is
active and the cursor is inside the snapshot, every interval callback
advances the cursor by exactly one independently of the in-flight flag, and
an in-flight tick dispatches nothing; the run self-terminates (the interval
is cleared by the callback itself, with no explicit stop) at the callback
after the cursor reaches the end; for a snapshot of 5 leads exactly the
first 5 callbacks are cursor-advancing ticks, after them the cursor sits at
5 with the timer still armed, and the following callback clears it; the
rate-2 interval is 500 ms. -/
theorem pacing_scheduler_run :
    (∀ rate : ℕ, pacingIntervalMs rate = 1000 / (rate : ℚ)) ∧
    (∀ (n : ℕ) (inFlight : Bool) (st : RunState), st.active = true → st.cursor < n →
      (intervalCallback n inFlight st).1.cursor = st.cursor + 1 ∧
      (intervalCallback n inFlight st).1 = callbackState n st ∧
      (intervalCallback n true st).2 = false) ∧
    (∀ n : ℕ, (callbackState n)^[n] initialRunState = ⟨n, true⟩ ∧
      (callbackState n)^[n + 1] initialRunState = ⟨n, false⟩) ∧
    (callbackState 5)^[5] initialRunState = ⟨5, true⟩ ∧
    (callbackState 5)^[6] initialRunState = ⟨5, false⟩ ∧
    pacingIntervalMs 2 = 500 := by
  refine ⟨?_, ?_, ?_, by decide, by decide, by norm_num [pacingIntervalMs]⟩
  · intro rate
    rw [pacingIntervalMs, div_mul_eq_mul_div, one_mul]
  · intro n inFlight st ha hc
    have hk : ¬ n ≤ st.cursor := by omega
    simp [intervalCallback, callbackState, ha, hk]
  · intro n
    exact ⟨callbackState_iterate n n le_rfl, callbackState_terminates n⟩

/-- C3: determineCallStatus returns Failed exactly when the payload carries
success = false at top level or under the message envelope, or a status
string containing fail case-insensitively; every other payload, including a
zero-duration one with no failure marker, is Completed. -/
theorem determineCallStatus_failed_iff (p : Payload) :
    (determineCallStatus p = "Failed" ↔
      (p.success = some false ∨ p.message.bind Message.success = some false ∨
        ∃ s, p.status = some s ∧ strIncludes (lowerStr s) "fail" = true)) ∧
    (determineCallStatus p = "Failed" ∨ determineCallStatus p = "Completed") ∧
    determineCallStatus { durationSeconds := some 0 } = "Completed" := by
  refine ⟨?_, ?_, by decide⟩ <;>
  · by_cases h1 : p.success = some false
    · simp [determineCallStatus, h1]
    · by_cases h2 : p.message.bind Message.success = some false
      · simp [determineCallStatus, h1, h2]
      · rcases hs : p.status with _ | s
        · simp [determineCallStatus, h1, h2, hs]
        · by_cases hf : strIncludes (lowerStr s) "fail" = true <;>
            simp [determineCallStatus, h1, h2, hs, hf]

/-- C4: the lead update derives cost as (duration seconds / 60) * 0.99 and
stores the duration as duration seconds / 60 minutes; a payload with
durationSeconds 90 yields a stored duration of 1.5 minutes and a cost of
1.485. -/
theorem cost_and_duration_derivation (p : Payload) :
    (leadUpdateOf p).duration = extractDuration p / 60 ∧
    (leadUpdateOf p).cost = (extractDuration p / 60) * (99 / 100) ∧
    (leadUpdateOf { durationSeconds := some 90 }).duration = 3 / 2 ∧
    (leadUpdateOf { durationSeconds := some 90 }).cost = 1485 / 1000 := by
  refine ⟨rfl, rfl, ?_, ?_⟩
  · norm_num [leadUpdateOf, extractDuration, qTruthy]
  · norm_num [leadUpdateOf, extractDuration, qTruthy, calculateCallCost]

/-- C5: the lead matcher tries, in order and stopping at the first match,
the exact phone match, the digit-stripped last-ten-digit containment search,
and the bounded 25-row bidirectional suffix scan; the name search (candidates
filtered to a digit-stripped phone ending in the incoming last four digits)
runs only after the phone matcher fails and a customer name is present; the
incoming number +1 (555) 010-2222 matches a stored lead with phone
5550102222; an outcome no step resolves updates no lead while the webhook is
still acknowledged with status 200. -/
theorem lead_matcher_priority (db : List Lead) (ph : String) :
    (findLeadByPhoneNumber db ph =
      (exactPhoneStep db ph).orElse (fun _ =>
        (lastTenStep db (lastNChars 10 (stripNonDigits ph))).orElse (fun _ =>
          boundedScanStep db (stripNonDigits ph) (lastNChars 10 (stripNonDigits ph))))) ∧
    (∀ p, extractContactId p = none → extractPhoneNumber p = some ph →
      findLeadByPhoneNumber db ph = none →
      resolveContactId db p =
        (match extractCustomerName p with
         | some nm => (findLeadByNameAndPhone db nm ph).map Lead.id
         | none => none)) ∧
    findLeadByPhoneNumber [{ id := "L1", phone_number := some "5550102222" }]
      "+1 (555) 010-2222" = some { id := "L1", phone_number := some "5550102222" } ∧
    (∀ (p : Payload) (u : Bool), resolveContactId db p = none →
      (handleWebhook (some p) db u).2 = none ∧
      (handleWebhook (some p) db u).1.status = 200) := by
  refine ⟨?_, ?_, by decide, ?_⟩
  · cases he : exactPhoneStep db ph with
    | none =>
      cases hl : lastTenStep db (lastNChars 10 (stripNonDigits ph)) with
      | none => simp [findLeadByPhoneNumber, he, hl, Option.orElse]
      | some l => simp [findLeadByPhoneNumber, he, hl, Option.orElse]
    | some l => simp [findLeadByPhoneNumber, he, Option.orElse]
  · intro p h1 h2 h3
    simp [resolveContactId, h1, h2, h3]
  · intro p u h
    cases hp : extractPhoneNumber p with
    | none => simp [handleWebhook, h, hp]
    | some ph2 => simp [handleWebhook, h, hp]

/-- C6: a dispatch writes the In Progress status and the Call initiated
sentinel exactly when the looked-up lead is still Pending and the provider
answers success; a lead whose status changed is rejected with no provider
request, and a provider failure or transport error writes nothing, leaving
the lead Pending. -/
theorem triggerCall_state_change (leads : List Lead) (leadId : String)
    (resp : ProviderResp) (l : Lead)
    (hfind : leads.find? (fun x => x.id == leadId) = some l) :
    ((triggerCall leads leadId resp).update.isSome ↔
      (l.status = "Pending" ∧ resp = .ok true)) ∧
    (l.status ≠ "Pending" → triggerCall leads leadId resp = ⟨false, none⟩) ∧
    (l.status = "Pending" → resp = .ok true →
      (triggerCall leads leadId resp).update = some ("In Progress", "Call initiated")) ∧
    ((resp = .err ∨ resp = .ok false) → (triggerCall leads leadId resp).update = none) := by
  by_cases hs : l.status = "Pending"
  · cases resp with
    | err => simp [triggerCall, hfind, hs]
    | ok b => cases b <;> simp [triggerCall, hfind, hs]
  · simp [triggerCall, hfind, hs]

/-- C6 witness: a concrete one-lead table with a Pending lead and a provider
success. -/
theorem triggerCall_state_change_witness :
    ((triggerCall [{ id := "a" }] "a" (ProviderResp.ok true)).update.isSome ↔
      (({ id := "a" } : Lead).status = "Pending" ∧
        ProviderResp.ok true = ProviderResp.ok true)) ∧
    (({ id := "a" } : Lead).status ≠ "Pending" →
      triggerCall [{ id := "a" }] "a" (ProviderResp.ok true) = ⟨false, none⟩) ∧
    (({ id := "a" } : Lead).status = "Pending" →
      ProviderResp.ok true = ProviderResp.ok true →
      (triggerCall [{ id := "a" }] "a" (ProviderResp.ok true)).update =
        some ("In Progress", "Call initiated")) ∧
    ((ProviderResp.ok true = ProviderResp.err ∨
        ProviderResp.ok true = ProviderResp.ok false) →
      (triggerCall [{ id := "a" }] "a" (ProviderResp.ok true)).update = none) :=
  triggerCall_state_change [{ id := "a" }] "a" (ProviderResp.ok true) { id := "a" }
    (by decide)

/-- C7: every webhook request is answered with HTTP 200 and a success flag
plus message; a malformed body, an unresolvable contact with no phone, and a
failed repository update all answer 200 with success = false. -/
theorem webhook_always_200 (body : Option Payload) (db : List Lead) (updateOk : Bool) :
    (handleWebhook body db updateOk).1.status = 200 ∧
    (handleWebhook none db updateOk).1 = ⟨200, false, "Invalid JSON payload"⟩ ∧
    (∀ (p : Payload) (cid : String), resolveContactId db p = some cid →
      (handleWebhook (some p) db false).1 = ⟨200, false, "Failed to update lead"⟩) ∧
    (∀ p : Payload, resolveContactId db p = none → extractPhoneNumber p = none →
      (handleWebhook (some p) db updateOk).1 =
        ⟨200, false, "Failed to find contact information in webhook"⟩) := by
  refine ⟨?_, rfl, ?_, ?_⟩
  · cases body with
    | none => rfl
    | some p =>
      simp only [handleWebhook]
      cases hr : resolveContactId db p with
      | none =>
        cases hp : extractPhoneNumber p with
        | none => rfl
        | some ph => rfl
      | some cid => cases updateOk <;> rfl
  · intro p cid h
    simp [handleWebhook, h]
  · intro p h1 h2
    simp [handleWebhook, h1, h2]

/-- C8: starting a run whose eligible set (Pending with a non-null phone id)
is empty is refused: no timer is created and the run never enters the
executing state. -/
theorem startExecution_no_eligible (leads : List Lead) (pacing : ℕ)
    (h : eligibleLeads leads = []) :
    startExecution leads pacing = .noEligible ∧
    (startExecution leads pacing).timerCreated = false ∧
    (startExecution leads pacing).executing = false := by
  simp [startExecution, h, StartResult.timerCreated, StartResult.executing]

/-- C8 witness: a table whose only lead is already Completed. -/
theorem startExecution_no_eligible_witness :
    startExecution [{ id := "a", status := "Completed" }] 1 = .noEligible ∧
    (startExecution [{ id := "a", status := "Completed" }] 1).timerCreated = false ∧
    (startExecution [{ id := "a", status := "Completed" }] 1).executing = false :=
  startExecution_no_eligible [{ id := "a", status := "Completed" }] 1 (by decide)

/-- C9: re-applying the same normalized outcome to the lead table is
idempotent row-wise, so the stats recomputed by scanning lead rows are
unchanged by a duplicate delivery. -/
theorem webhook_update_idempotent (db : List Lead) (cid : String) (u : LeadUpdate) :
    applyUpdate (applyUpdate db cid u) cid u = applyUpdate db cid u ∧
    computeStats (applyUpdate (applyUpdate db cid u) cid u) =
      computeStats (applyUpdate db cid u) := by
  have h : applyUpdate (applyUpdate db cid u) cid u = applyUpdate db cid u := by
    unfold applyUpdate
    rw [List.map_map]
    congr 1
    funext l
    by_cases hl : l.id = cid <;> simp [hl]
  exact ⟨h, by rw [h]⟩

/-- C10: extractDuration treats a falsy value at a path as absent: an
explicit 0 at top-level durationSeconds falls through to the first truthy
among message.durationSeconds, duration and message.duration, and only when
all four paths are absent or falsy does it return the default 0. -/
theorem extractDuration_falsy_fallthrough (p : Payload) (d : ℚ) (hd : d ≠ 0) :
    (p.durationSeconds = some 0 → p.message.bind Message.durationSeconds = some d →
      extractDuration p = d) ∧
    (p.durationSeconds = some 0 →
      qTruthy (p.message.bind Message.durationSeconds) = false →
      p.duration = some d → extractDuration p = d) ∧
    (p.durationSeconds = some 0 →
      qTruthy (p.message.bind Message.durationSeconds) = false →
      qTruthy p.duration = false → p.message.bind Message.duration = some d →
      extractDuration p = d) ∧
    (qTruthy p.durationSeconds = false →
      qTruthy (p.message.bind Message.durationSeconds) = false →
      qTruthy p.duration = false → qTruthy (p.message.bind Message.duration) = false →
      extractDuration p = 0) := by
  refine ⟨?_, ?_, ?_, ?_⟩
  · intro h1 h2
    have h1q : qTruthy p.durationSeconds = false := by simp [qTruthy, h1]
    have h2q : qTruthy (p.message.bind Message.durationSeconds) = true := by
      simp [qTruthy, h2, hd]
    simp only [extractDuration, h1q, h2q, if_true, if_false, Bool.false_eq_true, ite_false,
      ite_true]
    simp [h2]
  · intro h1 h2 h3
    have h1q : qTruthy p.durationSeconds = false := by simp [qTruthy, h1]
    have h3q : qTruthy p.duration = true := by simp [qTruthy, h3, hd]
    simp only [extractDuration, h1q, h2, h3q, if_true, if_false, Bool.false_eq_true,
      ite_false, ite_true]
    simp [h3]
  · intro h1 h2 h3 h4
    have h1q : qTruthy p.durationSeconds = false := by simp [qTruthy, h1]
    have h4q : qTruthy (p.message.bind Message.duration) = true := by
      simp [qTruthy, h4, hd]
    simp only [extractDuration, h1q, h2, h3, h4q, if_true, if_false, Bool.false_eq_true,
      ite_false, ite_true]
    simp [h4]
  · intro h1 h2 h3 h4
    simp [extractDuration, h1, h2, h3, h4]

/-- C10 witness: top-level durationSeconds 0 with a nonzero
message.durationSeconds of 7. -/
theorem extractDuration_falsy_fallthrough_witness :
    extractDuration
      { durationSeconds := some 0, message := some { durationSeconds := some 7 } } = 7 :=
  (extractDuration_falsy_fallthrough
    { durationSeconds := some 0, message := some { durationSeconds := some 7 } } 7
    (by norm_num)).1 rfl rfl

end AiPulse
